import Mathlib

/-!
Shallow embedding of the London Imbalance backtest pipeline:
`london_imbalance.py` (indicator computation and signal detection) and
`engine.py` (trade simulation and metrics aggregation).

Prices, volumes and parameters are modelled as exact rationals; the
timestamp of a bar is modelled as minutes since an epoch, from which the
hour-of-day used by the session gate is derived.  Pandas NaN propagation on
warmup rows (EMA diff at row 0, rolling means before the window fills,
shifted rolling extrema at row 0) is modelled with `Option`: a comparison
against a missing value is `false`, exactly as a comparison against NaN is
`False` in the source.
-/

set_option maxRecDepth 100000

/-- One OHLCV bar.  `time` is minutes since an epoch; `df.iloc[i].name`
(the timestamp index) corresponds to `time`, and `timestamp.hour` to
`hourOf time`.  The field `open_` renders Python's `open` column, which is
a reserved word in Lean. -/
structure Bar where
  time : ℕ
  open_ : ℚ
  high : ℚ
  low : ℚ
  close : ℚ
  volume : ℚ
  deriving Repr, DecidableEq

instance : Inhabited Bar := ⟨⟨0, 0, 0, 0, 0, 0⟩⟩

/-- Trade direction, the `'LONG'` / `'SHORT'` strings of the source. -/
inductive Direction where
  | LONG
  | SHORT
  deriving Repr, DecidableEq

/-- Level classification of a signal: `'Round'` or `'Prev Day'`. -/
inductive LevelType where
  | Round
  | PrevDay
  deriving Repr, DecidableEq

/-- Exit reason strings of `engine.py`. -/
inductive ExitReason where
  | STOP_LOSS
  | TP2
  | TP1
  | TIME_STOP
  deriving Repr, DecidableEq

/-- The signal dictionary built in `LondonImbalanceStrategy.detect_signals`
and consumed by `BacktestEngine.execute_trades`. -/
structure Signal where
  timestamp : ℕ
  direction : Direction
  entry_price : ℚ
  stop_loss : ℚ
  tp1 : ℚ
  tp2 : ℚ
  level_type : LevelType
  entry_index : ℕ
  deriving Repr, DecidableEq

/-- The trade dictionary built in `BacktestEngine.execute_trades`. -/
structure Trade where
  entry_time : ℕ
  direction : Direction
  entry_price : ℚ
  exit_price : ℚ
  exit_reason : ExitReason
  pips : ℚ
  win : Bool
  bars_in_trade : ℕ
  level_type : LevelType
  deriving Repr, DecidableEq

/-- The strategy object: the seven constructor parameters of
`LondonImbalanceStrategy.__init__` plus the fixed `pip_value`. -/
structure LondonImbalanceStrategy where
  volume_multiplier : ℚ
  min_wick_pips : ℚ
  min_body_pips : ℚ
  ema_length : ℚ
  stop_loss_pips : ℚ
  tp1_pips : ℚ
  tp2_pips : ℚ
  pip_value : ℚ
  deriving Repr, DecidableEq

/-- `LondonImbalanceStrategy.__init__`: stores the seven parameters and sets
`pip_value = 0.0001`.  The constructor body contains no validation and no
raise statement; it is a total function of its arguments. -/
def mkStrategy (volume_multiplier min_wick_pips min_body_pips ema_length
    stop_loss_pips tp1_pips tp2_pips : ℚ) : LondonImbalanceStrategy :=
  { volume_multiplier := volume_multiplier
    min_wick_pips := min_wick_pips
    min_body_pips := min_body_pips
    ema_length := ema_length
    stop_loss_pips := stop_loss_pips
    tp1_pips := tp1_pips
    tp2_pips := tp2_pips
    pip_value := 1 / 10000 }

/-- The strategy instantiated with the constructor's default arguments
(also the values passed by `backtest_runner.py`). -/
def defaultStrategy : LondonImbalanceStrategy :=
  mkStrategy (3/2) 8 5 20 15 20 30

namespace LondonImbalanceStrategy

/-- `pips_to_price`. -/
def pips_to_price (s : LondonImbalanceStrategy) (pips : ℚ) : ℚ :=
  pips * s.pip_value

/-- `price_to_pips`. -/
def price_to_pips (s : LondonImbalanceStrategy) (price : ℚ) : ℚ :=
  price / s.pip_value

end LondonImbalanceStrategy

/-- Hour of day of a timestamp given in minutes since an epoch,
modelling `timestamp.hour`. -/
def hourOf (t : ℕ) : ℕ := t / 60 % 24

/-- `is_london_session`: `8 <= timestamp.hour < 11`. -/
def is_london_session (t : ℕ) : Bool :=
  decide (8 ≤ hourOf t ∧ hourOf t < 11)

/-- Python `int(x)`: truncation toward zero. -/
def pyInt (x : ℚ) : ℤ :=
  if 0 ≤ x then ⌊x⌋ else -⌊-x⌋

/-- `is_near_round_number`: the last two pip digits of the price are within
`tolerance_pips` of the 00 level (mod 100) or of the 50 level. -/
def is_near_round_number (s : LondonImbalanceStrategy) (price : ℚ)
    (tolerance_pips : ℤ) : Bool :=
  let price_in_pips := pyInt (price / s.pip_value)
  let last_two_digits := price_in_pips % 100
  if |last_two_digits| ≤ tolerance_pips ∨ |last_two_digits - 100| ≤ tolerance_pips then
    true
  else if |last_two_digits - 50| ≤ tolerance_pips then
    true
  else
    false

/-- `df.iloc[i]` on the modelled frame. -/
def barAt (df : List Bar) (i : ℕ) : Bar := df.getD i default

/-! ### `calculate_indicators` -/

/-- `df['ema_20'] = df['close'].ewm(span=ema_length, adjust=False).mean()`:
the recurrence `y[0] = close[0]`, `y[i] = y[i-1] + α·(close[i] - y[i-1])`
with `α = 2/(span+1)`. -/
def ema_20 (s : LondonImbalanceStrategy) (df : List Bar) : ℕ → ℚ
  | 0 => (barAt df 0).close
  | i + 1 =>
    let prev := ema_20 s df i
    prev + 2 / (s.ema_length + 1) * ((barAt df (i + 1)).close - prev)

/-- `df['ema_slope'] = df['ema_20'].diff()`; `none` renders the NaN at
row 0. -/
def ema_slope (s : LondonImbalanceStrategy) (df : List Bar) (i : ℕ) : Option ℚ :=
  if i = 0 then none else some (ema_20 s df i - ema_20 s df (i - 1))

/-- `df['volume_ma'] = df['volume'].rolling(window=20).mean()`; `none`
renders the NaN before the 20-bar window fills. -/
def volume_ma (df : List Bar) (i : ℕ) : Option ℚ :=
  if 20 ≤ i + 1 then
    some ((((List.range' (i + 1 - 20) 20).map fun j => (barAt df j).volume).sum) / 20)
  else
    none

/-- `df['volume_spike'] = df['volume'] > df['volume_ma'] * volume_multiplier`;
a comparison against NaN is `False`. -/
def volume_spike (s : LondonImbalanceStrategy) (df : List Bar) (i : ℕ) : Bool :=
  match volume_ma df i with
  | some m => decide ((barAt df i).volume > m * s.volume_multiplier)
  | none => false

/-- `df['body'] = abs(df['close'] - df['open'])`. -/
def body (df : List Bar) (i : ℕ) : ℚ :=
  |(barAt df i).close - (barAt df i).open_|

/-- `df['upper_wick'] = df['high'] - df[['open','close']].max(axis=1)`. -/
def upper_wick (df : List Bar) (i : ℕ) : ℚ :=
  (barAt df i).high - max (barAt df i).open_ (barAt df i).close

/-- `df['lower_wick'] = df[['open','close']].min(axis=1) - df['low']`. -/
def lower_wick (df : List Bar) (i : ℕ) : ℚ :=
  min (barAt df i).open_ (barAt df i).close - (barAt df i).low

/-- `df['body_pips']`. -/
def body_pips (s : LondonImbalanceStrategy) (df : List Bar) (i : ℕ) : ℚ :=
  s.price_to_pips (body df i)

/-- `df['upper_wick_pips']`. -/
def upper_wick_pips (s : LondonImbalanceStrategy) (df : List Bar) (i : ℕ) : ℚ :=
  s.price_to_pips (upper_wick df i)

/-- `df['lower_wick_pips']`. -/
def lower_wick_pips (s : LondonImbalanceStrategy) (df : List Bar) (i : ℕ) : ℚ :=
  s.price_to_pips (lower_wick df i)

/-- Maximum of a list, the empty case unreachable at use sites. -/
def listMax : List ℚ → ℚ
  | [] => 0
  | x :: xs => xs.foldl max x

/-- Minimum of a list, the empty case unreachable at use sites. -/
def listMin : List ℚ → ℚ
  | [] => 0
  | x :: xs => xs.foldl min x

/-- `df['prev_day_high'] = df['high'].shift(1).rolling(window=288,
min_periods=1).max()`: for `i ≥ 1` the maximum of `high` over the indices
`max(0, i-288) … i-1`; `none` renders the NaN at row 0. -/
def prev_day_high (df : List Bar) (i : ℕ) : Option ℚ :=
  if i = 0 then none
  else some (listMax ((List.range' (i - 288) (min i 288)).map fun j => (barAt df j).high))

/-- `df['prev_day_low']`, mirroring `prev_day_high` with `min` over `low`. -/
def prev_day_low (df : List Bar) (i : ℕ) : Option ℚ :=
  if i = 0 then none
  else some (listMin ((List.range' (i - 288) (min i 288)).map fun j => (barAt df j).low))

/-! ### `detect_signals`: the five conditions, evaluated at bar `i` with
prior bar `i - 1` -/

/-- Condition 1 (location), round-number part:
`at_round_number = is_near_round_number(row['close'])` with the default
tolerance of 5 pips. -/
def at_round_number (s : LondonImbalanceStrategy) (df : List Bar) (i : ℕ) : Bool :=
  is_near_round_number s (barAt df i).close 5

/-- Condition 1 (location), prior-session-high part:
`abs(row['close'] - row['prev_day_high']) < pips_to_price(5)`; `false` when
the extremum is NaN. -/
def at_prev_day_high (s : LondonImbalanceStrategy) (df : List Bar) (i : ℕ) : Bool :=
  match prev_day_high df i with
  | some h => decide (|(barAt df i).close - h| < s.pips_to_price 5)
  | none => false

/-- Condition 1 (location), prior-session-low part. -/
def at_prev_day_low (s : LondonImbalanceStrategy) (df : List Bar) (i : ℕ) : Bool :=
  match prev_day_low df i with
  | some l => decide (|(barAt df i).close - l| < s.pips_to_price 5)
  | none => false

/-- `at_key_level = at_round_number or at_prev_day_high or at_prev_day_low`. -/
def at_key_level (s : LondonImbalanceStrategy) (df : List Bar) (i : ℕ) : Bool :=
  at_round_number s df i || at_prev_day_high s df i || at_prev_day_low s df i

/-- Condition 3, Long side:
`bullish_rejection = prev_row['lower_wick_pips'] >= min_wick_pips`. -/
def bullish_rejection (s : LondonImbalanceStrategy) (df : List Bar) (i : ℕ) : Bool :=
  decide (lower_wick_pips s df (i - 1) ≥ s.min_wick_pips)

/-- Condition 3, Short side:
`bearish_rejection = prev_row['upper_wick_pips'] >= min_wick_pips`. -/
def bearish_rejection (s : LondonImbalanceStrategy) (df : List Bar) (i : ℕ) : Bool :=
  decide (upper_wick_pips s df (i - 1) ≥ s.min_wick_pips)

/-- Condition 4, body part: `strong_body = row['body_pips'] >= min_body_pips`. -/
def strong_body (s : LondonImbalanceStrategy) (df : List Bar) (i : ℕ) : Bool :=
  decide (body_pips s df i ≥ s.min_body_pips)

/-- Condition 4, Long break:
`row['close'] > row['open'] and row['close'] > prev_row['high']`. -/
def bullish_confirm (df : List Bar) (i : ℕ) : Bool :=
  decide ((barAt df i).close > (barAt df i).open_ ∧
    (barAt df i).close > (barAt df (i - 1)).high)

/-- Condition 4, Short break:
`row['close'] < row['open'] and row['close'] < prev_row['low']`. -/
def bearish_confirm (df : List Bar) (i : ℕ) : Bool :=
  decide ((barAt df i).close < (barAt df i).open_ ∧
    (barAt df i).close < (barAt df (i - 1)).low)

/-- Condition 5, Long side:
`row['ema_slope'] > 0 and row['close'] > row['ema_20']`; `false` when the
slope is NaN. -/
def ema_bullish (s : LondonImbalanceStrategy) (df : List Bar) (i : ℕ) : Bool :=
  match ema_slope s df i with
  | some sl => decide (sl > 0 ∧ (barAt df i).close > ema_20 s df i)
  | none => false

/-- Condition 5, Short side. -/
def ema_bearish (s : LondonImbalanceStrategy) (df : List Bar) (i : ℕ) : Bool :=
  match ema_slope s df i with
  | some sl => decide (sl < 0 ∧ (barAt df i).close < ema_20 s df i)
  | none => false

/-- The Long gate of the signal branch:
`bullish_rejection and bullish_confirm and strong_body and ema_bullish`. -/
def longConditions (s : LondonImbalanceStrategy) (df : List Bar) (i : ℕ) : Bool :=
  bullish_rejection s df i && bullish_confirm df i && strong_body s df i &&
    ema_bullish s df i

/-- The Short gate of the `elif` branch:
`bearish_rejection and bearish_confirm and strong_body and ema_bearish`. -/
def shortConditions (s : LondonImbalanceStrategy) (df : List Bar) (i : ℕ) : Bool :=
  bearish_rejection s df i && bearish_confirm df i && strong_body s df i &&
    ema_bearish s df i

/-- The Long signal dictionary appended at bar `i`. -/
def mkLongSignal (s : LondonImbalanceStrategy) (df : List Bar) (i : ℕ) : Signal :=
  { timestamp := (barAt df i).time
    direction := .LONG
    entry_price := (barAt df i).close
    stop_loss := (barAt df i).close - s.pips_to_price s.stop_loss_pips
    tp1 := (barAt df i).close + s.pips_to_price s.tp1_pips
    tp2 := (barAt df i).close + s.pips_to_price s.tp2_pips
    level_type := if at_round_number s df i then .Round else .PrevDay
    entry_index := i }

/-- The Short signal dictionary appended at bar `i`. -/
def mkShortSignal (s : LondonImbalanceStrategy) (df : List Bar) (i : ℕ) : Signal :=
  { timestamp := (barAt df i).time
    direction := .SHORT
    entry_price := (barAt df i).close
    stop_loss := (barAt df i).close + s.pips_to_price s.stop_loss_pips
    tp1 := (barAt df i).close - s.pips_to_price s.tp1_pips
    tp2 := (barAt df i).close - s.pips_to_price s.tp2_pips
    level_type := if at_round_number s df i then .Round else .PrevDay
    entry_index := i }

/-- One iteration of the `detect_signals` scan loop at bar `i`: the session
gate, the location gate, the volume gate (each a `continue` in the source),
then the Long branch and the Short `elif` branch. -/
def signalAt (s : LondonImbalanceStrategy) (df : List Bar) (i : ℕ) : Option Signal :=
  if !is_london_session (barAt df i).time then none
  else if !at_key_level s df i then none
  else if !volume_spike s df (i - 1) then none
  else if longConditions s df i then some (mkLongSignal s df i)
  else if shortConditions s df i then some (mkShortSignal s df i)
  else none

/-- `detect_signals`: scan bars `100 … len(df)-1` (the warmup skip of
`range(100, len(df))`), collecting the emitted signals in order. -/
def detect_signals (s : LondonImbalanceStrategy) (df : List Bar) : List Signal :=
  (List.range' 100 (df.length - 100)).filterMap (signalAt s df)

/-! ### `BacktestEngine.execute_trades` -/

/-- The per-bar exit test of the scan loop, in source order: stop-loss
first, then TP2, then TP1; `none` when the bar triggers nothing.  For a
Long trade the stop triggers on `low <= stop_loss` and targets on
`high >= target`; Short is mirrored. -/
def exitCheck (direction : Direction) (stop_loss tp1 tp2 : ℚ) (bar : Bar) :
    Option (ℚ × ExitReason) :=
  match direction with
  | .LONG =>
    if bar.low ≤ stop_loss then some (stop_loss, .STOP_LOSS)
    else if bar.high ≥ tp2 then some (tp2, .TP2)
    else if bar.high ≥ tp1 then some (tp1, .TP1)
    else none
  | .SHORT =>
    if bar.high ≥ stop_loss then some (stop_loss, .STOP_LOSS)
    else if bar.low ≤ tp2 then some (tp2, .TP2)
    else if bar.low ≤ tp1 then some (tp1, .TP1)
    else none

/-- The forward scan of `execute_trades`: walk the bar indices in order,
incrementing `bars_in_trade` once per visited bar, stopping at the first
triggered exit.  Returns the triggered exit (or `none`) and the final
`bars_in_trade`. -/
def scanExit (direction : Direction) (stop_loss tp1 tp2 : ℚ) (df : List Bar) :
    List ℕ → ℕ → Option (ℚ × ExitReason) × ℕ
  | [], n => (none, n)
  | i :: rest, n =>
    match exitCheck direction stop_loss tp1 tp2 (barAt df i) with
    | some e => (some e, n + 1)
    | none => scanExit direction stop_loss tp1 tp2 df rest (n + 1)

/-- The bar indices visited by the scan loop,
`range(entry_idx + 1, min(entry_idx + max_bars, len(df)))` with
`max_bars = 60`. -/
def scanIndices (df : List Bar) (entry_idx : ℕ) : List ℕ :=
  List.range' (entry_idx + 1) (min (entry_idx + 60) df.length - (entry_idx + 1))

/-- The body of `execute_trades` for one signal: scan forward for an exit;
if none triggers, force-close at
`df.iloc[min(entry_idx + max_bars - 1, len(df) - 1)]['close']` with reason
TIME_STOP; pips are the direction-adjusted price difference over the fixed
pip size `0.0001`, and `win = pips > 0`. -/
def simulateTrade (df : List Bar) (signal : Signal) : Trade :=
  let r := scanExit signal.direction signal.stop_loss signal.tp1 signal.tp2 df
    (scanIndices df signal.entry_index) 0
  let exitPR : ℚ × ExitReason :=
    match r.1 with
    | some e => e
    | none =>
      ((barAt df (min (signal.entry_index + 60 - 1) (df.length - 1))).close,
        .TIME_STOP)
  let pips : ℚ :=
    match signal.direction with
    | .LONG => (exitPR.1 - signal.entry_price) / (1 / 10000)
    | .SHORT => (signal.entry_price - exitPR.1) / (1 / 10000)
  { entry_time := signal.timestamp
    direction := signal.direction
    entry_price := signal.entry_price
    exit_price := exitPR.1
    exit_reason := exitPR.2
    pips := pips
    win := decide (pips > 0)
    bars_in_trade := r.2
    level_type := signal.level_type }

/-- `execute_trades`: one trade record per signal, in order. -/
def execute_trades (df : List Bar) (signals : List Signal) : List Trade :=
  signals.map (simulateTrade df)

/-! ### `BacktestEngine.calculate_metrics` -/

/-- `winners = trades_df[trades_df['win'] == True]`. -/
def winnersOf (trades : List Trade) : List Trade :=
  trades.filter fun t => t.win

/-- `losers = trades_df[trades_df['win'] == False]`. -/
def losersOf (trades : List Trade) : List Trade :=
  trades.filter fun t => !t.win

/-- `gross_profit = winners['pips'].sum() if len(winners) > 0 else 0`. -/
def gross_profit (trades : List Trade) : ℚ :=
  if 0 < (winnersOf trades).length then ((winnersOf trades).map Trade.pips).sum
  else 0

/-- `gross_loss = abs(losers['pips'].sum()) if len(losers) > 0 else 0`. -/
def gross_loss (trades : List Trade) : ℚ :=
  if 0 < (losersOf trades).length then |((losersOf trades).map Trade.pips).sum|
  else 0

/-- `profit_factor = gross_profit / gross_loss if gross_loss > 0 else 0`. -/
def profit_factor (trades : List Trade) : ℚ :=
  if gross_loss trades > 0 then gross_profit trades / gross_loss trades else 0

/-- Python's banker's rounding to an integer, on exact rationals: round to
the nearest integer, ties to the even neighbour. -/
def roundHalfEven (x : ℚ) : ℤ :=
  if x - ⌊x⌋ < 1 / 2 then ⌊x⌋
  else if 1 / 2 < x - ⌊x⌋ then ⌊x⌋ + 1
  else if ⌊x⌋ % 2 = 0 then ⌊x⌋ else ⌊x⌋ + 1

/-- Python `round(x, digits)` on exact rationals. -/
def round_q (digits : ℕ) (x : ℚ) : ℚ :=
  (roundHalfEven (x * 10 ^ digits) : ℚ) / 10 ^ digits

/-- The summary dictionary of `calculate_metrics`. -/
structure MetricsSummary where
  total_trades : ℕ
  winners : ℕ
  losers : ℕ
  win_rate : ℚ
  total_pips : ℚ
  avg_pips : ℚ
  avg_win_pips : ℚ
  avg_loss_pips : ℚ
  profit_factor : ℚ
  avg_bars_in_trade : ℚ
  deriving Repr, DecidableEq

/-- `calculate_metrics`: the all-zero summary on an empty trade set,
otherwise the aggregates of the source, each ratio rounded as the source
rounds it and each empty-denominator path defaulting to 0. -/
def calculate_metrics (trades : List Trade) : MetricsSummary :=
  if trades.length = 0 then
    { total_trades := 0, winners := 0, losers := 0, win_rate := 0
      total_pips := 0, avg_pips := 0, avg_win_pips := 0, avg_loss_pips := 0
      profit_factor := 0, avg_bars_in_trade := 0 }
  else
    let total_trades := trades.length
    let winners := winnersOf trades
    let losers := losersOf trades
    let win_rate : ℚ :=
      if 0 < total_trades then (winners.length : ℚ) / total_trades * 100 else 0
    let total_pips := (trades.map Trade.pips).sum
    { total_trades := total_trades
      winners := winners.length
      losers := losers.length
      win_rate := round_q 2 win_rate
      total_pips := round_q 2 total_pips
      avg_pips := round_q 2 (total_pips / total_trades)
      avg_win_pips :=
        if 0 < winners.length then
          round_q 2 ((winners.map Trade.pips).sum / winners.length)
        else 0
      avg_loss_pips :=
        if 0 < losers.length then
          round_q 2 ((losers.map Trade.pips).sum / losers.length)
        else 0
      profit_factor := round_q 2 (profit_factor trades)
      avg_bars_in_trade :=
        if 0 < trades.length then
          round_q 1 ((trades.map fun t => (t.bars_in_trade : ℚ)).sum / total_trades)
        else 0 }

/-! ### Concrete inputs used by witnesses and counterexamples -/

/-- A flat warmup bar for the detection scenario. -/
def wBase : Bar := ⟨0, 207/200, 207/200, 207/200, 207/200, 100⟩

/-- The rejection bar: an 8-pip lower wick on a volume spike. -/
def wBar99 : Bar := ⟨0, 207/200, 207/200, 1.0342, 207/200, 1000⟩

/-- The confirmation bar: a bullish close at 1.0400 during the London
session. -/
def wBar100 : Bar := ⟨480, 1.0390, 1.0405, 1.0390, 1.0400, 100⟩

/-- A 101-bar sequence whose final bar satisfies all five Long entry
conditions. -/
def wDf : List Bar := List.replicate 99 wBase ++ [wBar99, wBar100]

/-- A flat bar that triggers no stop or target of `cSig`. -/
def cBar : Bar := ⟨0, 1, 1.0001, 0.9999, 1, 0⟩

/-- A 100-bar flat sequence. -/
def cDf : List Bar := List.replicate 100 cBar

/-- A Long signal at index 0 whose stop and targets lie outside the range
of `cBar`, forcing a time stop. -/
def cSig : Signal := ⟨0, .LONG, 1, 9/10, 11/10, 12/10, .Round, 0⟩

/-- A 20-bar constant-volume sequence for the volume-spike probe. -/
def vDf : List Bar := List.replicate 20 ⟨0, 1, 1, 1, 1, 100⟩

/-- A single winning trade. -/
def tWin : Trade := ⟨0, .LONG, 1, 103/100, .TP2, 30, true, 3, .Round⟩

/-- A single losing trade. -/
def tLoss : Trade := ⟨0, .LONG, 1, 197/200, .STOP_LOSS, -15, false, 2, .Round⟩

/-! ### Helper lemmas -/

/-- A forward scan over bars that all fail the exit test returns no exit
and counts every visited bar. -/
theorem scanExit_all_none (d : Direction) (sl t1 t2 : ℚ) (df : List Bar)
    (l : List ℕ) (n : ℕ)
    (h : ∀ i ∈ l, exitCheck d sl t1 t2 (barAt df i) = none) :
    scanExit d sl t1 t2 df l n = (none, n + l.length) := by
  induction l generalizing n with
  | nil => simp [scanExit]
  | cons j t ih =>
    have hj : exitCheck d sl t1 t2 (barAt df j) = none := h j (by simp)
    have ht : ∀ i ∈ t, exitCheck d sl t1 t2 (barAt df i) = none :=
      fun i hi => h i (List.mem_cons_of_mem _ hi)
    simp only [scanExit, hj]
    rw [ih (n + 1) ht]
    simp only [List.length_cons, Prod.mk.injEq]
    exact ⟨trivial, by omega⟩

/-- The bar count of a forward scan never exceeds the number of scanned
indices. -/
theorem scanExit_snd_le (d : Direction) (sl t1 t2 : ℚ) (df : List Bar)
    (l : List ℕ) (n : ℕ) :
    (scanExit d sl t1 t2 df l n).2 ≤ n + l.length := by
  induction l generalizing n with
  | nil => simp [scanExit]
  | cons j t ih =>
    cases hj : exitCheck d sl t1 t2 (barAt df j) with
    | some e =>
      simp only [scanExit, hj, List.length_cons]
      omega
    | none =>
      simp only [scanExit, hj, List.length_cons]
      calc (scanExit d sl t1 t2 df t (n + 1)).2 ≤ (n + 1) + t.length := ih (n + 1)
        _ = n + (t.length + 1) := by omega

/-- A signal emitted at bar `i` is the Long or the Short record of bar
`i`. -/
theorem signalAt_cases (s : LondonImbalanceStrategy) (df : List Bar) (i : ℕ)
    (sig : Signal) (h : signalAt s df i = some sig) :
    sig = mkLongSignal s df i ∨ sig = mkShortSignal s df i := by
  unfold signalAt at h
  split_ifs at h <;> cases h
  · exact Or.inl rfl
  · exact Or.inr rfl

/-- A signal emitted at bar `i` records `entry_index = i`. -/
theorem signalAt_entry_index (s : LondonImbalanceStrategy) (df : List Bar)
    (i : ℕ) (sig : Signal) (h : signalAt s df i = some sig) :
    sig.entry_index = i := by
  rcases signalAt_cases s df i sig h with rfl | rfl <;> rfl

/-- Over distinct scan indices, at most one emitted signal can carry a
given `entry_index`. -/
theorem countP_signalAt_le_one (s : LondonImbalanceStrategy) (df : List Bar)
    (i : ℕ) (l : List ℕ) (hl : l.Nodup) :
    ((l.filterMap (signalAt s df)).countP fun g => g.entry_index == i) ≤ 1 := by
  induction l with
  | nil => simp
  | cons j t ih =>
    obtain ⟨hj, ht⟩ := List.nodup_cons.mp hl
    rw [List.filterMap_cons]
    cases hsig : signalAt s df j with
    | none => exact ih ht
    | some g =>
      rw [List.countP_cons]
      by_cases hgi : g.entry_index = i
      · have hji : j = i := by
          have := signalAt_entry_index s df j g hsig
          omega
        have hzero :
            ((t.filterMap (signalAt s df)).countP fun g => g.entry_index == i) = 0 := by
          rw [List.countP_eq_zero]
          intro g' hg'
          obtain ⟨j', hj', hsig'⟩ := List.mem_filterMap.mp hg'
          have hj'i : g'.entry_index = j' := signalAt_entry_index s df j' g' hsig'
          have hne : j' ≠ i := by
            intro hctr
            have hjj' : j = j' := by omega
            exact hj (hjj' ▸ hj')
          simp [hj'i, hne]
        simp [hzero, hgi]
      · simp [hgi]
        exact ih ht

/-! ### Claim theorems -/

/-- C1: at each forward bar, exit conditions are checked in strict priority
stop-loss, then target2, then target1: a Long bar satisfying the stop bound
resolves to StopLoss even when a target bound also holds, and a Long bar
satisfying both targets but not the stop resolves to target2; mirrored on
high/low for Short. -/
theorem exit_priority (stop_loss tp1 tp2 : ℚ) (b : Bar) :
    (b.low ≤ stop_loss → (b.high ≥ tp1 ∨ b.high ≥ tp2) →
      exitCheck .LONG stop_loss tp1 tp2 b = some (stop_loss, .STOP_LOSS)) ∧
    (¬ b.low ≤ stop_loss → b.high ≥ tp2 → b.high ≥ tp1 →
      exitCheck .LONG stop_loss tp1 tp2 b = some (tp2, .TP2)) ∧
    (b.high ≥ stop_loss → (b.low ≤ tp1 ∨ b.low ≤ tp2) →
      exitCheck .SHORT stop_loss tp1 tp2 b = some (stop_loss, .STOP_LOSS)) ∧
    (¬ b.high ≥ stop_loss → b.low ≤ tp2 → b.low ≤ tp1 →
      exitCheck .SHORT stop_loss tp1 tp2 b = some (tp2, .TP2)) := by
  refine ⟨?_, ?_, ?_, ?_⟩
  · intro h _
    simp [exitCheck, h]
  · intro h1 h2 _
    simp [exitCheck, h1, h2]
  · intro h _
    simp [exitCheck, h]
  · intro h1 h2 _
    simp [exitCheck, h1, h2]

/-- C1 witness: concrete bars satisfying both the stop and a target resolve
to StopLoss, and bars satisfying both targets but not the stop resolve to
target2, in both directions. -/
theorem exit_priority_witness :
    exitCheck .LONG 1 3 4 ⟨0, 0, 5, 0, 0, 0⟩ = some (1, .STOP_LOSS) ∧
    exitCheck .LONG 1 3 4 ⟨0, 0, 5, 2, 0, 0⟩ = some (4, .TP2) ∧
    exitCheck .SHORT 4 3 2 ⟨0, 0, 5, 1, 0, 0⟩ = some (4, .STOP_LOSS) ∧
    exitCheck .SHORT 4 3 2 ⟨0, 0, 3, 1, 0, 0⟩ = some (2, .TP2) :=
  ⟨(exit_priority 1 3 4 _).1 (by with_unfolding_all decide)
      (Or.inl (by with_unfolding_all decide)),
   (exit_priority 1 3 4 _).2.1 (by with_unfolding_all decide)
      (by with_unfolding_all decide) (by with_unfolding_all decide),
   (exit_priority 4 3 2 _).2.2.1 (by with_unfolding_all decide)
      (Or.inl (by with_unfolding_all decide)),
   (exit_priority 4 3 2 _).2.2.2 (by with_unfolding_all decide)
      (by with_unfolding_all decide) (by with_unfolding_all decide)⟩

/-- C2 counterexample: a Long trade whose forward bars never trigger any
exit condition is closed with `bars_in_trade = 59`, not 60: the scan loop
`range(entry_idx + 1, min(entry_idx + 60, len(df)))` visits only 59 bars. -/
theorem time_stop_counterexample :
    cSig.direction = .LONG ∧
    (∀ i ∈ scanIndices cDf cSig.entry_index,
      exitCheck cSig.direction cSig.stop_loss cSig.tp1 cSig.tp2 (barAt cDf i) = none) ∧
    (simulateTrade cDf cSig).exit_reason = .TIME_STOP ∧
    (simulateTrade cDf cSig).bars_in_trade = 59 ∧
    (simulateTrade cDf cSig).bars_in_trade ≠ 60 := by
  with_unfolding_all decide

/-- C2 amended: a Long trade whose forward bars never satisfy the stop or
either target, with at least 60 bars after the entry bar, is closed at the
59th forward bar's close (index `entry_index + 59`) with reason TimeStop
and `bars_in_trade = 59`. -/
theorem time_stop_fifty_nine (df : List Bar) (sig : Signal)
    (_hdir : sig.direction = .LONG)
    (hlen : sig.entry_index + 60 ≤ df.length)
    (hnone : ∀ i ∈ scanIndices df sig.entry_index,
      exitCheck sig.direction sig.stop_loss sig.tp1 sig.tp2 (barAt df i) = none) :
    (simulateTrade df sig).exit_reason = .TIME_STOP ∧
    (simulateTrade df sig).bars_in_trade = 59 ∧
    (simulateTrade df sig).exit_price = (barAt df (sig.entry_index + 59)).close := by
  have hlen59 : (scanIndices df sig.entry_index).length = 59 := by
    simp only [scanIndices, List.length_range']
    omega
  have hscan : scanExit sig.direction sig.stop_loss sig.tp1 sig.tp2 df
      (scanIndices df sig.entry_index) 0 = (none, 59) := by
    rw [scanExit_all_none _ _ _ _ _ _ _ hnone, hlen59]
  have hmin : (sig.entry_index + 59) ⊓ (df.length - 1) =
      sig.entry_index + 59 := by omega
  refine ⟨?_, ?_, ?_⟩
  · simp [simulateTrade, hscan]
  · simp [simulateTrade, hscan]
  · simp [simulateTrade, hscan, hmin]

/-- C2 witness: the amended statement at the flat 100-bar sequence. -/
theorem time_stop_fifty_nine_witness :
    cSig.entry_index + 60 ≤ cDf.length ∧
    ((simulateTrade cDf cSig).exit_reason = .TIME_STOP ∧
      (simulateTrade cDf cSig).bars_in_trade = 59 ∧
      (simulateTrade cDf cSig).exit_price = (barAt cDf (cSig.entry_index + 59)).close) :=
  ⟨by with_unfolding_all decide,
   time_stop_fifty_nine cDf cSig (by with_unfolding_all decide)
     (by with_unfolding_all decide) (by with_unfolding_all decide)⟩

/-- C3: every trade record produced by `execute_trades` holds for at most
`max_bars = 60` bars. -/
theorem bars_in_trade_le_max (df : List Bar) (signals : List Signal) (t : Trade)
    (ht : t ∈ execute_trades df signals) : t.bars_in_trade ≤ 60 := by
  obtain ⟨sig, -, rfl⟩ := List.mem_map.mp ht
  have h1 : (simulateTrade df sig).bars_in_trade =
      (scanExit sig.direction sig.stop_loss sig.tp1 sig.tp2 df
        (scanIndices df sig.entry_index) 0).2 := rfl
  have h2 := scanExit_snd_le sig.direction sig.stop_loss sig.tp1 sig.tp2 df
    (scanIndices df sig.entry_index) 0
  have h3 : (scanIndices df sig.entry_index).length ≤ 59 := by
    simp only [scanIndices, List.length_range']
    omega
  omega

/-- C3 witness: the horizon bound at a concrete simulated trade. -/
theorem bars_in_trade_le_max_witness :
    simulateTrade cDf cSig ∈ execute_trades cDf [cSig] ∧
    (simulateTrade cDf cSig).bars_in_trade ≤ 60 :=
  ⟨by simp [execute_trades],
   bars_in_trade_le_max cDf [cSig] _ (by simp [execute_trades])⟩

/-- C4: the profit factor is 0 whenever gross loss is 0 — in particular on
any non-empty all-winners trade set, where the reported summary field is 0
as well — and equals gross profit over gross loss whenever gross loss is
positive. -/
theorem profit_factor_convention (trades : List Trade) :
    (gross_loss trades = 0 → profit_factor trades = 0) ∧
    (0 < gross_loss trades →
      profit_factor trades = gross_profit trades / gross_loss trades) ∧
    (trades ≠ [] → (∀ t ∈ trades, t.win = true) →
      profit_factor trades = 0 ∧ (calculate_metrics trades).profit_factor = 0) := by
  refine ⟨?_, ?_, ?_⟩
  · intro h
    simp [profit_factor, h]
  · intro h
    simp [profit_factor, h]
  · intro hne hwin
    have hlo : losersOf trades = [] := by
      simp only [losersOf, List.filter_eq_nil_iff]
      intro t ht
      simp [hwin t ht]
    have hgl : gross_loss trades = 0 := by simp [gross_loss, hlo]
    have hpf : profit_factor trades = 0 := by simp [profit_factor, hgl]
    refine ⟨hpf, ?_⟩
    have hlen : ¬ trades.length = 0 := by
      simpa [List.length_eq_zero] using hne
    have hr0 : round_q 2 0 = 0 := by
      norm_num [round_q, roundHalfEven]
    simp [calculate_metrics, hlen, hpf, hr0]

/-- C4 witness: a one-winner trade set has gross loss 0 and profit factor 0
(also in the reported summary); a mixed set has the quotient profit
factor. -/
theorem profit_factor_convention_witness :
    gross_loss [tWin] = 0 ∧ profit_factor [tWin] = 0 ∧
    0 < gross_loss [tWin, tLoss] ∧
    profit_factor [tWin, tLoss] = gross_profit [tWin, tLoss] / gross_loss [tWin, tLoss] ∧
    (calculate_metrics [tWin]).profit_factor = 0 :=
  ⟨by with_unfolding_all decide,
   (profit_factor_convention [tWin]).1 (by with_unfolding_all decide),
   by with_unfolding_all decide,
   (profit_factor_convention [tWin, tLoss]).2.1 (by with_unfolding_all decide),
   ((profit_factor_convention [tWin]).2.2 (by simp)
     (by with_unfolding_all decide)).2⟩

/-- C5: aggregating an empty trade set yields the all-zero summary: total
trades 0 and every ratio and average field 0, with no division
performed. -/
theorem calculate_metrics_empty :
    calculate_metrics [] =
      { total_trades := 0, winners := 0, losers := 0, win_rate := 0, total_pips := 0,
        avg_pips := 0, avg_win_pips := 0, avg_loss_pips := 0, profit_factor := 0,
        avg_bars_in_trade := 0 } := rfl

/-- C6 counterexample: a configuration violating the validation rules
(volume multiplier -1 ≤ 0) is not rejected: the constructor stores it
unchanged and downstream computation proceeds with it — the volume-spike
indicator fires on an ordinary bar because the baseline is scaled by a
negative multiplier. -/
theorem config_accepted_counterexample :
    (mkStrategy (-1) 8 5 20 15 20 30).volume_multiplier = -1 ∧
    (mkStrategy (-1) 8 5 20 15 20 30).volume_multiplier ≤ 0 ∧
    volume_spike (mkStrategy (-1) 8 5 20 15 20 30) vDf 19 = true := by
  with_unfolding_all decide

/-- C6 amended: the constructor performs no validation at all — every
configuration, including ones violating the documented rules, is accepted
and stored unchanged (with `pip_value = 0.0001`); no ConfigurationError
exists in the code. -/
theorem config_no_validation (vm w b e sl t1 t2 : ℚ) :
    mkStrategy vm w b e sl t1 t2 =
      { volume_multiplier := vm, min_wick_pips := w, min_body_pips := b,
        ema_length := e, stop_loss_pips := sl, tp1_pips := t1, tp2_pips := t2,
        pip_value := 1 / 10000 } := rfl

/-- C7 counterexample: an input with fewer rows than the warmup
requirement is not rejected — `detect_signals` proceeds and returns an
empty signal list. -/
theorem short_input_counterexample :
    (List.replicate 3 cBar).length < 100 ∧
    detect_signals defaultStrategy (List.replicate 3 cBar) = [] := by
  with_unfolding_all decide

/-- C7 amended: on any input with at most 100 rows (in particular fewer
than the 100-bar warmup requirement) `detect_signals` silently returns an
empty signal list; no InputError exists in the code. -/
theorem short_input_no_error (s : LondonImbalanceStrategy) (df : List Bar)
    (h : df.length ≤ 100) : detect_signals s df = [] := by
  unfold detect_signals
  have h0 : df.length - 100 = 0 := by omega
  rw [h0]
  rfl

/-- C7 witness: the amended statement at a concrete 50-bar input. -/
theorem short_input_no_error_witness :
    (List.replicate 50 cBar).length ≤ 100 ∧
    detect_signals defaultStrategy (List.replicate 50 cBar) = [] :=
  ⟨by simp, short_input_no_error defaultStrategy _ (by simp)⟩

/-- C8: at most one signal is emitted per scanned bar, and direction
resolution is first-match-wins with Long first: when the session, location
and volume gates pass and the Long conditions hold, the bar emits exactly
the Long signal — the Short branch is never consulted. -/
theorem one_signal_per_bar_long_first (s : LondonImbalanceStrategy)
    (df : List Bar) (i : ℕ) :
    ((detect_signals s df).countP fun g => g.entry_index == i) ≤ 1 ∧
    (is_london_session (barAt df i).time = true → at_key_level s df i = true →
      volume_spike s df (i - 1) = true → longConditions s df i = true →
      signalAt s df i = some (mkLongSignal s df i)) := by
  constructor
  · exact countP_signalAt_le_one s df i _ (List.nodup_range' _ _)
  · intro h1 h2 h3 h4
    simp [signalAt, h1, h2, h3, h4]

/-- C8 witness: the Long-first resolution at the concrete 101-bar
sequence. -/
theorem one_signal_per_bar_long_first_witness :
    ((detect_signals defaultStrategy wDf).countP fun g => g.entry_index == 100) ≤ 1 ∧
    signalAt defaultStrategy wDf 100 = some (mkLongSignal defaultStrategy wDf 100) :=
  ⟨(one_signal_per_bar_long_first defaultStrategy wDf 100).1,
   (one_signal_per_bar_long_first defaultStrategy wDf 100).2
     (by with_unfolding_all decide) (by with_unfolding_all decide)
     (by with_unfolding_all decide) (by with_unfolding_all decide)⟩

/-- C9: every emitted signal has entry price equal to the signal bar's
close, and stop/targets at fixed pip offsets from it, mirrored per
direction. -/
theorem signal_placement (s : LondonImbalanceStrategy) (df : List Bar)
    (sig : Signal) (h : sig ∈ detect_signals s df) :
    sig.entry_price = (barAt df sig.entry_index).close ∧
    (sig.direction = .LONG →
      sig.stop_loss = sig.entry_price - s.pips_to_price s.stop_loss_pips ∧
      sig.tp1 = sig.entry_price + s.pips_to_price s.tp1_pips ∧
      sig.tp2 = sig.entry_price + s.pips_to_price s.tp2_pips) ∧
    (sig.direction = .SHORT →
      sig.stop_loss = sig.entry_price + s.pips_to_price s.stop_loss_pips ∧
      sig.tp1 = sig.entry_price - s.pips_to_price s.tp1_pips ∧
      sig.tp2 = sig.entry_price - s.pips_to_price s.tp2_pips) := by
  obtain ⟨i, hi, hsig⟩ := List.mem_filterMap.mp h
  rcases signalAt_cases s df i sig hsig with rfl | rfl
  · refine ⟨rfl, fun _ => ⟨rfl, rfl, rfl⟩, fun hd => ?_⟩
    simp [mkLongSignal] at hd
  · refine ⟨rfl, fun hd => ?_, fun _ => ⟨rfl, rfl, rfl⟩⟩
    simp [mkShortSignal] at hd

/-- C9 witness: the concrete scenario — a Long entry at 1.0400 with the
default 15/20/30 pip distances places stop 1.0385, target1 1.0420,
target2 1.0430. -/
theorem signal_placement_witness :
    mkLongSignal defaultStrategy wDf 100 ∈ detect_signals defaultStrategy wDf ∧
    (mkLongSignal defaultStrategy wDf 100).entry_price =
      (barAt wDf (mkLongSignal defaultStrategy wDf 100).entry_index).close ∧
    (mkLongSignal defaultStrategy wDf 100).entry_price = 1.0400 ∧
    (mkLongSignal defaultStrategy wDf 100).stop_loss = 1.0385 ∧
    (mkLongSignal defaultStrategy wDf 100).tp1 = 1.0420 ∧
    (mkLongSignal defaultStrategy wDf 100).tp2 = 1.0430 := by
  have hmem : mkLongSignal defaultStrategy wDf 100 ∈ detect_signals defaultStrategy wDf := by
    with_unfolding_all decide
  refine ⟨hmem, (signal_placement defaultStrategy wDf _ hmem).1, ?_, ?_, ?_, ?_⟩ <;>
    with_unfolding_all decide

/-- C10: a simulated trade's win flag is true exactly when its signed pips
are strictly positive (a zero-pip trade is a loser), and the win/loss
partition always covers the trade set: winners + losers = total. -/
theorem win_iff_positive_pips :
    (∀ (df : List Bar) (signals : List Signal) (t : Trade),
      t ∈ execute_trades df signals → (t.win = true ↔ t.pips > 0)) ∧
    (∀ trades : List Trade,
      (winnersOf trades).length + (losersOf trades).length = trades.length) := by
  constructor
  · intro df signals t ht
    obtain ⟨sig, -, rfl⟩ := List.mem_map.mp ht
    have h : (simulateTrade df sig).win =
        decide ((simulateTrade df sig).pips > 0) := rfl
    rw [h]
    exact decide_eq_true_iff
  · intro trades
    induction trades with
    | nil => rfl
    | cons t ts ih =>
      simp only [winnersOf, losersOf, List.filter_cons] at ih ⊢
      cases hw : t.win <;> simp [hw] <;> omega

/-- C10 witness: a concrete time-stop trade at the entry price has zero
pips and is counted as a loser. -/
theorem win_iff_positive_pips_witness :
    simulateTrade cDf cSig ∈ execute_trades cDf [cSig] ∧
    ((simulateTrade cDf cSig).win = true ↔ (simulateTrade cDf cSig).pips > 0) ∧
    (simulateTrade cDf cSig).pips = 0 ∧
    (simulateTrade cDf cSig).win = false :=
  ⟨by simp [execute_trades],
   win_iff_positive_pips.1 cDf [cSig] _ (by simp [execute_trades]),
   by with_unfolding_all decide,
   by with_unfolding_all decide⟩
